import Mathlib

/-!
Verification of the sidecar process supervisor in
`src/desktop/src-tauri/src/backend.rs` (crate `smartmart` desktop shell).

The supervisor owns at most one child-process handle.  Its operations are
embedded as pure functions over an explicit OS environment `Env` (which
fixes the current executable's location, filesystem existence, and the
results of spawn/kill/wait system calls) and produce, besides the new
supervisor state, a trace of the externally visible actions they perform
(lock operations, handle reads/writes, kill/wait/sleep/spawn).
-/

namespace Smartmart

/-- A filesystem path, as its list of components. -/
abbrev Path : Type := List String

/-- Externally visible actions performed by the supervisor operations. -/
inductive Action : Type
  /-- Acquiring the single mutex guarding the shared supervisor state. -/
  | lockAcquire : Action
  /-- Releasing that mutex. -/
  | lockRelease : Action
  /-- Reading the optional child handle (`self.child`). -/
  | readChild : Action
  /-- Writing the optional child handle (`self.child`). -/
  | writeChild : Action
  /-- `child.kill()` on the process with handle `c`. -/
  | killProc (c : Nat) : Action
  /-- `child.wait()` on the process with handle `c`. -/
  | waitProc (c : Nat) : Action
  /-- `std::thread::sleep` for `n` seconds. -/
  | sleepSecs (n : Nat) : Action
  /-- Spawning `p` with argument list `args` (`Command::new(p).args(args).spawn()`). -/
  | spawnProc (p : Path) (args : List String) : Action
  deriving DecidableEq

/-- The OS environment the supervisor runs against: where the current
executable lives, which files exist, and how the spawn/kill/wait system
calls would respond. -/
structure Env : Type where
  /-- Result of `std::env::current_exe()`: the full path of the running
  executable, or the OS error message. -/
  currentExe : Except String Path
  /-- `p.exists()` for a path `p`. -/
  pathExists : Path → Bool
  /-- Result of spawning `p` with arguments `args`: a fresh child handle,
  or the OS error message. -/
  spawnResult : Path → List String → Except String Nat
  /-- Result of `child.kill()` on handle `c`. -/
  killResult : Nat → Except String Unit
  /-- Result of `child.wait()` on handle `c`. -/
  waitResult : Nat → Except String Unit

/-- `current_exe()?.parent().ok_or(...)`: the directory holding the running
executable, embedding both failure modes of the source (the
`current_exe` error and the missing-parent error). -/
def exeDirOf (env : Env) : Except String Path :=
  match env.currentExe with
  | Except.error e => Except.error ("获取程序路径失败: " ++ e)
  | Except.ok p =>
    match p with
    | [] => Except.error "无法获取父目录"
    | _ :: _ => Except.ok p.dropLast

/-- The ordered candidate list `possible_paths` of `BackendProcess::start`:
the backend binary beside the current executable, then in a `resources`
subdirectory. -/
def candidatePaths (exeDir : Path) : List Path :=
  [exeDir ++ ["smartmart-backend.exe"],
   exeDir ++ ["resources", "smartmart-backend.exe"]]

/-- `possible_paths.iter().find(|p| p.exists())`. -/
def resolveBackendPath (env : Env) (exeDir : Path) : Option Path :=
  (candidatePaths exeDir).find? (fun p => env.pathExists p)

/-- Rendering of a path in an error message (the `{:?}` debug form:
quoted, components joined by the separator). -/
def renderPath (p : Path) : String :=
  "\"" ++ String.intercalate "/" p ++ "\""

/-- The error message built when neither candidate exists; it lists both
attempted paths, exactly as the `format!` in the source. -/
def notFoundMessage (p0 p1 : Path) : String :=
  "Backend 可执行文件不存在，已尝试路径:\n  - " ++ renderPath p0 ++
    "\n  - " ++ renderPath p1

/-- The supervisor state: `struct BackendProcess { child: Option<Child> }`,
with child handles as numbers. -/
structure BackendProcess : Type where
  child : Option Nat
  deriving DecidableEq

/-- `BackendProcess::new()`. -/
def BackendProcess.new : BackendProcess := { child := none }

/-- The fixed argument list passed to the backend:
`["--host", "0.0.0.0", "--port", &port.to_string()]`. -/
def backendArgs (port : Nat) : List String :=
  ["--host", "0.0.0.0", "--port", toString port]

/-- `BackendProcess::start`: resolve the executable directory, pick the
first existing candidate path, spawn it with the fixed arguments, and on
success store the new handle.  Returns the new state, the action trace,
and the result.  Every error path leaves `self.child` untouched, exactly
as the `?` early returns in the source do. -/
def BackendProcess.start (env : Env) (st : BackendProcess) (port : Nat) :
    BackendProcess × List Action × Except String Unit :=
  match exeDirOf env with
  | Except.error e => (st, [], Except.error e)
  | Except.ok exeDir =>
    match resolveBackendPath env exeDir with
    | none =>
      (st, [],
       Except.error (notFoundMessage (exeDir ++ ["smartmart-backend.exe"])
         (exeDir ++ ["resources", "smartmart-backend.exe"])))
    | some resourcePath =>
      match env.spawnResult resourcePath (backendArgs port) with
      | Except.error e =>
        (st, [Action.spawnProc resourcePath (backendArgs port)],
         Except.error ("启动 Backend 失败: " ++ e))
      | Except.ok c =>
        ({ child := some c },
         [Action.spawnProc resourcePath (backendArgs port), Action.writeChild],
         Except.ok ())

/-- `BackendProcess::stop`: `self.child.take()` (a read and a write of the
handle); when a handle was present, kill it and wait for it, discarding
both results (`let _ = child.kill(); let _ = child.wait();`).  No error
channel exists in its type, matching the `()`-returning source. -/
def BackendProcess.stop (env : Env) (st : BackendProcess) :
    BackendProcess × List Action :=
  match st.child with
  | none => (st, [Action.readChild, Action.writeChild])
  | some c =>
    let _ := env.killResult c
    let _ := env.waitResult c
    ({ child := none },
     [Action.readChild, Action.writeChild, Action.killProc c, Action.waitProc c])

/-- `impl Drop for BackendProcess`: the destructor body is `self.stop()`. -/
def BackendProcess.dropHook (env : Env) (st : BackendProcess) :
    BackendProcess × List Action :=
  BackendProcess.stop env st

/-- The `get_backend_status` Tauri command.  The source takes no reference
to the shared state at all and returns `Ok("running".to_string())`; run
against any supervisor state, it leaves it unchanged, performs no action
(no lock acquisition, no handle access), and returns `running`. -/
def get_backend_status (st : BackendProcess) :
    BackendProcess × List Action × Except String String :=
  (st, [], Except.ok "running")

/-- The `restart_backend` Tauri command: lock the shared state, stop,
sleep one second, start on the given port, unlock (the mutex guard drops
on every return path).  The result is exactly the result of `start`. -/
def restart_backend (env : Env) (st : BackendProcess) (port : Nat) :
    BackendProcess × List Action × Except String Unit :=
  let s1 := BackendProcess.stop env st
  let s2 := BackendProcess.start env s1.1 port
  (s2.1,
   [Action.lockAcquire] ++ s1.2 ++ [Action.sleepSecs 1] ++ s2.2.1 ++
     [Action.lockRelease],
   s2.2.2)

/-- A trace contains no lock operation. -/
def lockFree (tr : List Action) : Bool :=
  tr.all (fun a =>
    match a with
    | Action.lockAcquire => false
    | Action.lockRelease => false
    | _ => true)

/-- Lock discipline check: scanning the trace with `d` locks currently
held, every read or write of the child handle happens while at least one
lock is held, and no release happens with none held. -/
def lockHeldOk : List Action → Nat → Bool
  | [], _ => true
  | Action.lockAcquire :: rest, d => lockHeldOk rest (d + 1)
  | Action.lockRelease :: rest, d => decide (0 < d) && lockHeldOk rest (d - 1)
  | Action.readChild :: rest, d => decide (0 < d) && lockHeldOk rest d
  | Action.writeChild :: rest, d => decide (0 < d) && lockHeldOk rest d
  | _ :: rest, d => lockHeldOk rest d

/-- The spawn action's payload, for extracting spawns from a trace. -/
def spawnOf : Action → Option (Path × List String)
  | Action.spawnProc p args => some (p, args)
  | _ => none

/-- A sample environment: the application lives in directory `app`, both
candidate backend paths exist, and every system call succeeds. -/
def envBoth : Env where
  currentExe := Except.ok ["app", "smartmart.exe"]
  pathExists := fun p =>
    decide (p = ["app", "smartmart-backend.exe"]) ||
      decide (p = ["app", "resources", "smartmart-backend.exe"])
  spawnResult := fun _ _ => Except.ok 7
  killResult := fun _ => Except.ok ()
  waitResult := fun _ => Except.ok ()

/-- A sample environment in which neither candidate path exists and every
system call fails. -/
def envNone : Env where
  currentExe := Except.ok ["app", "smartmart.exe"]
  pathExists := fun _ => false
  spawnResult := fun _ _ => Except.error "os error 2"
  killResult := fun _ => Except.error "no such process"
  waitResult := fun _ => Except.error "no child"

/-- Helper: the trace of `stop` contains no lock operation. -/
theorem stop_lockFree (env : Env) (st : BackendProcess) :
    lockFree (BackendProcess.stop env st).2 = true := by
  obtain ⟨ch⟩ := st
  cases ch <;> rfl

/-- Helper: the trace of `start` contains no lock operation. -/
theorem start_lockFree (env : Env) (st : BackendProcess) (p : Nat) :
    lockFree (BackendProcess.start env st p).2.1 = true := by
  unfold BackendProcess.start
  split
  · rfl
  · split
    · rfl
    · split <;> rfl

/-- Helper: scanning a lock-free trace prefix at positive depth neither
fails the discipline check nor changes the depth. -/
theorem lockHeldOk_append_free (tr rest : List Action) (d : Nat) (hd : 0 < d)
    (h : lockFree tr = true) :
    lockHeldOk (tr ++ rest) d = lockHeldOk rest d := by
  induction tr with
  | nil => rfl
  | cons a tl ih =>
    simp only [lockFree, List.all_cons, Bool.and_eq_true] at h
    have ih' := ih h.2
    cases a <;> simp_all [lockHeldOk, Nat.pos_iff_ne_zero]

/-- Helper: a trace of the restart shape — lock, a lock-free segment, the
sleep, another lock-free segment, unlock — satisfies the lock
discipline. -/
theorem lockHeldOk_wrap (tr1 tr2 : List Action) (h1 : lockFree tr1 = true)
    (h2 : lockFree tr2 = true) :
    lockHeldOk ([Action.lockAcquire] ++ tr1 ++ [Action.sleepSecs 1] ++ tr2 ++
      [Action.lockRelease]) 0 = true := by
  simp only [List.append_assoc]
  show lockHeldOk (tr1 ++ ([Action.sleepSecs 1] ++
    (tr2 ++ [Action.lockRelease]))) 1 = true
  rw [lockHeldOk_append_free _ _ 1 (by decide) h1]
  show lockHeldOk (tr2 ++ [Action.lockRelease]) 1 = true
  rw [lockHeldOk_append_free _ _ 1 (by decide) h2]
  rfl

/-- C1: for every port `p`, restart performs exactly lock-acquire, the Stop
actions, a one-second sleep, the Start actions for port `p`, lock-release;
its result and final state are exactly those of that Start; and neither
the Stop nor the Start segment touches the lock, so exclusive access is
held across the whole sequence.  Stop has no error channel, so only Start
can contribute an error. -/
theorem restart_sequence (env : Env) (st : BackendProcess) (p : Nat) :
    (restart_backend env st p).2.1 =
      [Action.lockAcquire] ++ (BackendProcess.stop env st).2 ++
        [Action.sleepSecs 1] ++
        (BackendProcess.start env (BackendProcess.stop env st).1 p).2.1 ++
        [Action.lockRelease] ∧
    (restart_backend env st p).2.2 =
      (BackendProcess.start env (BackendProcess.stop env st).1 p).2.2 ∧
    (restart_backend env st p).1 =
      (BackendProcess.start env (BackendProcess.stop env st).1 p).1 ∧
    lockFree (BackendProcess.stop env st).2 = true ∧
    lockFree (BackendProcess.start env (BackendProcess.stop env st).1 p).2.1 =
      true :=
  ⟨rfl, rfl, rfl, stop_lockFree env st, start_lockFree env _ p⟩

/-- C2: path resolution considers exactly the two candidates, sibling
first, `resources` subdirectory second, and returns the first existing
one — so whenever the sibling candidate exists (in particular when both
do), it is chosen. -/
theorem resolve_priority (env : Env) (dir : Path) :
    candidatePaths dir =
      [dir ++ ["smartmart-backend.exe"],
       dir ++ ["resources", "smartmart-backend.exe"]] ∧
    resolveBackendPath env dir =
      (if env.pathExists (dir ++ ["smartmart-backend.exe"]) then
        some (dir ++ ["smartmart-backend.exe"])
      else if env.pathExists (dir ++ ["resources", "smartmart-backend.exe"]) then
        some (dir ++ ["resources", "smartmart-backend.exe"])
      else none) := by
  refine ⟨rfl, ?_⟩
  simp only [resolveBackendPath, candidatePaths, List.find?]
  by_cases h0 : env.pathExists (dir ++ ["smartmart-backend.exe"]) <;>
    by_cases h1 : env.pathExists (dir ++ ["resources", "smartmart-backend.exe"]) <;>
    simp [h0, h1]

/-- C3: Stop's outcome is independent of whether the kill and wait system
calls fail (it has no error channel and swallows both results), and on a
supervisor holding no handle it leaves the state unchanged, so a
subsequent Start behaves exactly as if Stop had not been called. -/
theorem stop_noop_spec (env env' : Env) (st : BackendProcess)
    (h : st.child = none) :
    (∀ st' : BackendProcess,
      BackendProcess.stop env st' = BackendProcess.stop env' st') ∧
    (BackendProcess.stop env st).1 = st ∧
    (∀ p : Nat, BackendProcess.start env' (BackendProcess.stop env st).1 p =
      BackendProcess.start env' st p) := by
  refine ⟨fun st' => ?_, ?_, fun p => ?_⟩
  · obtain ⟨ch⟩ := st'
    cases ch <;> rfl
  · simp [BackendProcess.stop, h]
  · simp [BackendProcess.stop, h]

/-- C3 witness: stopping a freshly created (empty) supervisor leaves it
unchanged. -/
theorem stop_noop_spec_witness :
    BackendProcess.new.child = none ∧
    (BackendProcess.stop envBoth BackendProcess.new).1 = BackendProcess.new :=
  ⟨rfl, (stop_noop_spec envBoth envNone BackendProcess.new rfl).2.1⟩

/-- C4: the status query returns `Ok "running"` for every supervisor
state, whether or not a handle is present (the source command never even
inspects the state). -/
theorem status_always_running (st : BackendProcess) :
    get_backend_status st = (st, [], Except.ok "running") := rfl

/-- C5: when neither candidate exists, Start fails with the not-found
error, and that message contains both attempted paths, sibling first,
`resources` candidate second. -/
theorem start_notfound_enumerates (env : Env) (st : BackendProcess) (p : Nat)
    (dir : Path) (hdir : exeDirOf env = Except.ok dir)
    (h0 : env.pathExists (dir ++ ["smartmart-backend.exe"]) = false)
    (h1 : env.pathExists (dir ++ ["resources", "smartmart-backend.exe"]) = false) :
    (BackendProcess.start env st p).2.2 =
      Except.error (notFoundMessage (dir ++ ["smartmart-backend.exe"])
        (dir ++ ["resources", "smartmart-backend.exe"])) ∧
    (∃ a b c : String,
      notFoundMessage (dir ++ ["smartmart-backend.exe"])
          (dir ++ ["resources", "smartmart-backend.exe"]) =
        a ++ renderPath (dir ++ ["smartmart-backend.exe"]) ++ b ++
          renderPath (dir ++ ["resources", "smartmart-backend.exe"]) ++ c) := by
  constructor
  · have hres : resolveBackendPath env dir = none := by
      simp [resolveBackendPath, candidatePaths, List.find?, h0, h1]
    simp [BackendProcess.start, hdir, hres]
  · refine ⟨"Backend 可执行文件不存在，已尝试路径:\n  - ", "\n  - ", "", ?_⟩
    simp [notFoundMessage]

/-- C5 witness: in the environment where no file exists, Start on an empty
supervisor fails with the enumerating message. -/
theorem start_notfound_enumerates_witness :
    exeDirOf envNone = Except.ok ["app"] ∧
    envNone.pathExists (["app"] ++ ["smartmart-backend.exe"]) = false ∧
    (BackendProcess.start envNone BackendProcess.new 8000).2.2 =
      Except.error (notFoundMessage (["app"] ++ ["smartmart-backend.exe"])
        (["app"] ++ ["resources", "smartmart-backend.exe"])) :=
  ⟨rfl, rfl,
    (start_notfound_enumerates envNone BackendProcess.new 8000 ["app"]
      rfl rfl rfl).1⟩

/-- C6: whenever path resolution succeeds, Start performs exactly one
spawn, of the resolved path, with exactly the four arguments `--host`,
`0.0.0.0`, `--port`, and the decimal form of the port, in that order. -/
theorem start_spawn_args (env : Env) (st : BackendProcess) (p : Nat)
    (dir target : Path) (hdir : exeDirOf env = Except.ok dir)
    (hres : resolveBackendPath env dir = some target) :
    (BackendProcess.start env st p).2.1.filterMap spawnOf =
      [(target, ["--host", "0.0.0.0", "--port", toString p])] := by
  rcases hs : env.spawnResult target (backendArgs p) with e | c <;>
    simp only [BackendProcess.start, hdir, hres, hs] <;>
    simp [spawnOf, backendArgs]

/-- C6 witness: starting on port 8000 in the environment where the sibling
binary exists spawns it with `--host 0.0.0.0 --port 8000`. -/
theorem start_spawn_args_witness :
    exeDirOf envBoth = Except.ok ["app"] ∧
    resolveBackendPath envBoth ["app"] = some ["app", "smartmart-backend.exe"] ∧
    (BackendProcess.start envBoth BackendProcess.new 8000).2.1.filterMap spawnOf =
      [(["app", "smartmart-backend.exe"],
        ["--host", "0.0.0.0", "--port", "8000"])] :=
  ⟨rfl, by decide,
    Eq.trans (start_spawn_args envBoth BackendProcess.new 8000 ["app"]
      ["app", "smartmart-backend.exe"] rfl (by decide)) rfl⟩

/-- C7 counterexample: on a supervisor already holding handle 0 (Start has
no precondition forbidding this), a failing Start leaves that handle in
place, so the claim "after any Start error no handle is held" is false. -/
theorem start_error_keeps_handle_counterexample :
    (∃ e : String,
      (BackendProcess.start envNone ⟨some 0⟩ 8000).2.2 = Except.error e) ∧
    ¬ (BackendProcess.start envNone ⟨some 0⟩ 8000).1.child = none :=
  ⟨⟨notFoundMessage (["app"] ++ ["smartmart-backend.exe"])
      (["app"] ++ ["resources", "smartmart-backend.exe"]), rfl⟩,
    by decide⟩

/-- C7 amended: whenever Start returns an error, the supervisor state is
left exactly as it was — in particular, when no handle was held before
the call (true at every actual call site, since restart stops first), no
handle is held afterward. -/
theorem start_error_state_unchanged (env : Env) (st : BackendProcess)
    (p : Nat) (e : String)
    (h : (BackendProcess.start env st p).2.2 = Except.error e) :
    (BackendProcess.start env st p).1 = st := by
  unfold BackendProcess.start at h ⊢
  split at h
  · rfl
  · split at h
    · rfl
    · split at h
      · rfl
      · exact absurd h (by simp)

/-- C7 witness: a not-found failure on an empty supervisor leaves it
empty. -/
theorem start_error_state_unchanged_witness :
    (BackendProcess.start envNone BackendProcess.new 8000).2.2 =
      Except.error (notFoundMessage (["app"] ++ ["smartmart-backend.exe"])
        (["app"] ++ ["resources", "smartmart-backend.exe"])) ∧
    (BackendProcess.start envNone BackendProcess.new 8000).1 =
      BackendProcess.new :=
  ⟨rfl, start_error_state_unchanged envNone BackendProcess.new 8000
    (notFoundMessage (["app"] ++ ["smartmart-backend.exe"])
      (["app"] ++ ["resources", "smartmart-backend.exe"])) rfl⟩

/-- C8 counterexample: the status query performs no action at all — in
particular it never acquires the mutual-exclusion lock — refuting the
claim that every access, the status query included, acquires the lock and
that status queries are blocked during a restart. -/
theorem status_no_lock_counterexample :
    (get_backend_status BackendProcess.new).2.1 = [] ∧
    Action.lockAcquire ∉ (get_backend_status BackendProcess.new).2.1 :=
  ⟨rfl, by simp [get_backend_status]⟩

/-- C8 amended: the restart command obeys the lock discipline — every read
or write of the child handle in its trace happens with the lock held (it
acquires the lock before the stop-wait-start sequence and releases it
after) — while the status query performs no state access and no lock
operation at all, so it never touches the handle, but it is also not
mutually exclusive with a restart in progress. -/
theorem lock_discipline (env : Env) (st : BackendProcess) (p : Nat) :
    lockHeldOk (restart_backend env st p).2.1 0 = true ∧
    (get_backend_status st).2.1 = [] := by
  constructor
  · have htr : (restart_backend env st p).2.1 =
        [Action.lockAcquire] ++ (BackendProcess.stop env st).2 ++
          [Action.sleepSecs 1] ++
          (BackendProcess.start env (BackendProcess.stop env st).1 p).2.1 ++
          [Action.lockRelease] := rfl
    rw [htr]
    exact lockHeldOk_wrap _ _ (stop_lockFree env st) (start_lockFree env _ p)
  · rfl

/-- C9: the destructor body is exactly Stop, so teardown makes the same
state change and performs the same actions: destroying a supervisor with
a live handle kills and waits on that process and leaves no handle, and
destroying an empty supervisor changes nothing. -/
theorem drop_equiv_stop (env : Env) (st : BackendProcess) :
    BackendProcess.dropHook env st = BackendProcess.stop env st ∧
    (∀ c : Nat, st.child = some c →
      (BackendProcess.dropHook env st).1.child = none ∧
      Action.killProc c ∈ (BackendProcess.dropHook env st).2 ∧
      Action.waitProc c ∈ (BackendProcess.dropHook env st).2) ∧
    (st.child = none → (BackendProcess.dropHook env st).1 = st) := by
  refine ⟨rfl, fun c hc => ?_, fun hn => ?_⟩
  · simp [BackendProcess.dropHook, BackendProcess.stop, hc]
  · simp [BackendProcess.dropHook, BackendProcess.stop, hn]

/-- C9 witness: dropping a supervisor holding handle 5 clears the
handle. -/
theorem drop_equiv_stop_witness :
    (BackendProcess.mk (some 5)).child = some 5 ∧
    (BackendProcess.dropHook envBoth (BackendProcess.mk (some 5))).1.child =
      none :=
  ⟨rfl, ((drop_equiv_stop envBoth (BackendProcess.mk (some 5))).2.1 5 rfl).1⟩

/-- C10: after Stop the handle is always `none`, the outcome does not
depend on whether kill or wait failed, and when a handle `c` was present
the trace shows the handle being read and cleared strictly before the
kill and wait are attempted. -/
theorem stop_clears_handle (env env' : Env) (st : BackendProcess) :
    (BackendProcess.stop env st).1.child = none ∧
    BackendProcess.stop env st = BackendProcess.stop env' st ∧
    (∀ c : Nat, st.child = some c →
      (BackendProcess.stop env st).2 =
        [Action.readChild, Action.writeChild, Action.killProc c,
          Action.waitProc c]) := by
  obtain ⟨ch⟩ := st
  cases ch with
  | none => exact ⟨rfl, rfl, fun c hc => Option.noConfusion hc⟩
  | some c =>
    refine ⟨rfl, rfl, fun c' hc => ?_⟩
    cases hc
    rfl

/-- C10 witness: stopping a supervisor holding handle 3 in the environment
where kill and wait both fail still clears the handle, with the write
preceding the kill in the trace. -/
theorem stop_clears_handle_witness :
    (BackendProcess.stop envNone (BackendProcess.mk (some 3))).1.child =
      none ∧
    (BackendProcess.stop envNone (BackendProcess.mk (some 3))).2 =
      [Action.readChild, Action.writeChild, Action.killProc 3,
        Action.waitProc 3] :=
  ⟨(stop_clears_handle envNone envBoth (BackendProcess.mk (some 3))).1,
    (stop_clears_handle envNone envBoth (BackendProcess.mk (some 3))).2.2
      3 rfl⟩

end Smartmart
